import Mathlib

/-!
# Verification of the multi-session chat state manager (`src/app/page.tsx`)

Shallow embedding of the client-side support-chat widget's state manager.
Conventions used throughout:

* ISO-8601 timestamp strings are compared in the source only through
  `new Date(s).getTime()`; we model a timestamp directly as that numeric
  value (a `Nat`).
* JavaScript `null`/`undefined`-able values are modelled as `Option`s.
  JavaScript truthiness on nullable strings (`null`, `undefined` and `""`
  are falsy) is modelled by `jsTruthy`.
* Spreading `undefined` (`{...prev[id], ...fields}` when `prev[id]` is
  absent) yields an object holding only the patch fields; we model that
  object as `emptyChat` patched, with the absent fields collapsed to the
  empty/falsy readings the rest of the component would observe for them.
* `Array.prototype.sort` is stable and is invoked with the comparator
  `(a, b) => new Date(a.timestamp).getTime() - new Date(b.timestamp).getTime()`;
  we model it by a stable insertion sort on the timestamp key
  (`insertByTs` places a new element after all elements of timestamp
  less than or equal to its own).
* Each `fetch`/`prompt` outcome is an explicit oracle parameter, so the
  state transition of one asynchronous call is a pure function of the
  state and the oracle values.
-/

/-- `sender: 'user' | 'agent'` of the `Message` interface. -/
inductive Sender where
  | user
  | agent
  deriving DecidableEq, Repr

/-- The `Message` interface of `page.tsx`.  `timestamp` is the numeric
value of the ISO string (see header note); the source reads it only as
`new Date(...).getTime()`. -/
structure Message where
  id : String
  sender : Sender
  text : String
  agentName : Option String
  timestamp : Nat
  deriving DecidableEq, Repr

/-- The `ChatState` interface of `page.tsx`. -/
structure ChatState where
  clientId : String
  ticketId : Option String
  messages : List Message
  currentAgent : Option String
  isLoading : Bool
  linkStatus : Option String
  isLinking : Bool
  title : String
  deriving DecidableEq, Repr

/-- A message row returned by `GET /requests/{id}/messages`
(`{id, sender_type, content, timestamp}`). -/
structure ServerMessage where
  id : String
  sender_type : String
  content : String
  timestamp : Nat
  deriving DecidableEq, Repr

/-- Response body of `POST /requests` (`{id, assigned_agent?}`). -/
structure CreateResp where
  id : String
  assigned_agent : Option String
  deriving DecidableEq, Repr

/-- The HTTP requests the component can issue when sending a message. -/
inductive ApiRequest where
  | createTicket (content guestId clientId : String)
  | appendMessage (ticketId content guestId : String)
  deriving DecidableEq, Repr

/-- JavaScript truthiness of a nullable string: `null`/`undefined` and
`""` are falsy. -/
def jsTruthy : Option String → Bool
  | none => false
  | some s => !(s == "")

/-- JavaScript `x || d` for a nullable string `x` and string default `d`. -/
def jsOrStr (x : Option String) (d : String) : String :=
  match x with
  | some s => if s = "" then d else s
  | none => d

/-- JavaScript `x || y` where both sides are nullable strings. -/
def jsOrOpt (x y : Option String) : Option String :=
  match x with
  | some s => if s = "" then y else some s
  | none => y

/-- Whitespace as recognised by JavaScript `String.prototype.trim`
(restricted to the ASCII whitespace characters that can occur here). -/
def isJsWhitespace (c : Char) : Bool :=
  c == ' ' || c == '\t' || c == '\n' || c == '\r'

/-- JavaScript `s.trim()`: strip whitespace from both ends. -/
def jsTrim (s : String) : String :=
  String.mk (((s.data.dropWhile isJsWhitespace).reverse.dropWhile isJsWhitespace).reverse)

/-- `truncateText` of `page.tsx`. -/
def truncateText (text : String) (length : Nat) : String :=
  if text.length > length then text.take length ++ "..." else text

/-- `createNewChatState` of `page.tsx`; the fresh `crypto.randomUUID()` of
the welcome message and the current clock are parameters. -/
def createNewChatState (clientId welcomeId : String) (now : Nat) : ChatState :=
  { clientId := clientId
    ticketId := none
    messages := [{ id := welcomeId
                   sender := Sender.agent
                   text := "Welcome to FireCrawl Support! How can I help you today?"
                   agentName := some "TriageAgent"
                   timestamp := now }]
    currentAgent := some "TriageAgent"
    isLoading := false
    linkStatus := none
    isLinking := false
    title := "Chat " ++ clientId.take 4 ++ "..." }

/-- Stable insertion of a message into a list ordered by timestamp: the
new element goes after every element whose timestamp is less than or
equal to its own, matching the stable `Array.prototype.sort` tie
behaviour for an element appended at the end of the array. -/
def insertByTs (x : Message) : List Message → List Message
  | [] => [x]
  | y :: ys => if x.timestamp < y.timestamp then x :: y :: ys else y :: insertByTs x ys

/-- Stable sort by timestamp, modelling
`.sort((a, b) => new Date(a.timestamp).getTime() - new Date(b.timestamp).getTime())`. -/
def sortByTs (l : List Message) : List Message :=
  l.foldl (fun acc m => insertByTs m acc) []

/-- The Message Reconciler: the merge performed in `fetchAgentReply`
(lines 174-190).  Incoming messages whose `id` already occurs in
`existing` are dropped; if nothing new remains the state write is skipped
(`if (newAgentMessages.length > 0)`), otherwise the concatenation is
re-sorted by timestamp. -/
def mergeMessages (existing incoming : List Message) : List Message :=
  let news := incoming.filter (fun m => !(existing.any (fun e => e.id == m.id)))
  if 0 < news.length then sortByTs (existing ++ news) else existing

/-- Conversion of a fetched server message to a local agent `Message`
(the `.map` in `fetchAgentReply`, which hardcodes `agentName: "Agent"`). -/
def toAgentMessage (m : ServerMessage) : Message :=
  { id := m.id, sender := Sender.agent, text := m.content
    agentName := some "Agent", timestamp := m.timestamp }

/-- The component state: `chats` / `chatOrder` / `activeChatClientId`. -/
structure AppState where
  chats : String → Option ChatState
  chatOrder : List String
  activeChatClientId : Option String

/-- The derived `activeChat` value
(`activeChatClientId ? chats[activeChatClientId] : null`). -/
def activeChatOf (st : AppState) : Option ChatState :=
  match st.activeChatClientId with
  | none => none
  | some cid => st.chats cid

/-- A `Partial<ChatState>` argument of `updateActiveChatState`: `some`
fields are present in the partial object and override, `none` fields are
absent and keep the previous value. -/
structure ChatPatch where
  clientId : Option String := none
  ticketId : Option (Option String) := none
  messages : Option (List Message) := none
  currentAgent : Option (Option String) := none
  isLoading : Option Bool := none
  linkStatus : Option (Option String) := none
  isLinking : Option Bool := none
  title : Option String := none
  deriving DecidableEq, Repr

/-- The all-absent-fields chat object: what `{...prev[id], ...fields}`
starts from when `prev[id]` is `undefined`, with each missing field
collapsed to the empty/falsy reading the component would observe. -/
def emptyChat : ChatState :=
  { clientId := "", ticketId := none, messages := [], currentAgent := none
    isLoading := false, linkStatus := none, isLinking := false, title := "" }

/-- Object spread `{...c, ...p}`. -/
def applyPatch (c : ChatState) (p : ChatPatch) : ChatState :=
  { clientId := p.clientId.getD c.clientId
    ticketId := p.ticketId.getD c.ticketId
    messages := p.messages.getD c.messages
    currentAgent := p.currentAgent.getD c.currentAgent
    isLoading := p.isLoading.getD c.isLoading
    linkStatus := p.linkStatus.getD c.linkStatus
    isLinking := p.isLinking.getD c.isLinking
    title := p.title.getD c.title }

/-- `updateActiveChatState` (lines 145-151): guarded only on the active
pointer being null, then `{...prev, [activeChatClientId]: {...prev[activeChatClientId], ...newState}}`. -/
def updateActiveChatState (st : AppState) (p : ChatPatch) : AppState :=
  match st.activeChatClientId with
  | none => st
  | some aid =>
    { st with chats := fun k =>
        if k = aid then some (applyPatch ((st.chats aid).getD emptyChat) p) else st.chats k }

/-- `addMessageToActiveChat` (lines 153-163): append the message to
`prev[activeChatClientId]?.messages || []` and re-sort by timestamp. -/
def addMessageToActiveChat (st : AppState) (m : Message) : AppState :=
  match st.activeChatClientId with
  | none => st
  | some aid =>
    let current := ((st.chats aid).map (fun c => c.messages)).getD []
    let updated := sortByTs (current ++ [m])
    { st with chats := fun k =>
        if k = aid then some (applyPatch ((st.chats aid).getD emptyChat) { messages := some updated })
        else st.chats k }

/-- The first `setChats` of `fetchAgentReply` (lines 174-191): filter the
fetched rows to unseen agent messages and, when any remain, merge them
into the target chat (skipped entirely when the chat was deleted:
`if (!targetChat) return prev`). -/
def fetchMergeStep (st : AppState) (clientId : String) (fetched : List ServerMessage) : AppState :=
  let currentChatMessages := ((st.chats clientId).map (fun c => c.messages)).getD []
  let newAgentMessages :=
    (fetched.filter (fun m =>
      m.sender_type == "agent" && !(currentChatMessages.any (fun e => e.id == m.id)))).map toAgentMessage
  if 0 < newAgentMessages.length then
    match st.chats clientId with
    | none => st
    | some targetChat =>
      { st with chats := fun k =>
          if k = clientId then
            some { targetChat with messages := sortByTs (targetChat.messages ++ newAgentMessages) }
          else st.chats k }
  else st

/-- The outcome of the follow-up `GET /requests/{ticketId}` of
`fetchAgentReply` (lines 193-204): the fetch (or its `json()`) may throw
— that exception escapes to the surrounding `catch` — or return a non-ok
response (silently skipped by the `response.ok` test), or succeed with an
`assigned_agent` field. -/
inductive DetailsOutcome where
  | threw
  | notOk
  | ok (assigned : Option String)
  deriving DecidableEq, Repr

/-- The second `setChats` of `fetchAgentReply` (lines 196-203): update
`currentAgent` from a successful `GET /requests/{id}`
(`requestDetails.assigned_agent || targetChat.currentAgent`), a no-op
when the chat was deleted. -/
def fetchDetailsStep (st : AppState) (clientId : String) (assigned : Option String) : AppState :=
  match st.chats clientId with
  | none => st
  | some targetChat =>
    { st with chats := fun k =>
        if k = clientId then
          some { targetChat with currentAgent := jsOrOpt assigned targetChat.currentAgent }
        else st.chats k }

/-- `fetchAgentReply` (lines 165-209).  `fetched = none` means the
messages fetch threw or returned a non-ok status.  Both that and a
throwing details fetch land in the `catch` (lines 205-208), which appends
an error message to the *active* chat; a non-ok details response is
skipped without throwing. -/
def fetchAgentReply (st : AppState) (api : Option String) (clientId : String)
    (fetched : Option (List ServerMessage)) (details : DetailsOutcome)
    (errId : String) (errTs : Nat) : AppState :=
  if jsTruthy api = false ∨ clientId = "" then st
  else
    match fetched with
    | none =>
      addMessageToActiveChat st
        { id := errId, sender := Sender.agent, text := "Error fetching reply."
          agentName := some "System Error", timestamp := errTs }
    | some msgs =>
      match details with
      | DetailsOutcome.threw =>
        addMessageToActiveChat (fetchMergeStep st clientId msgs)
          { id := errId, sender := Sender.agent, text := "Error fetching reply."
            agentName := some "System Error", timestamp := errTs }
      | DetailsOutcome.notOk => fetchMergeStep st clientId msgs
      | DetailsOutcome.ok assigned =>
        fetchDetailsStep (fetchMergeStep st clientId msgs) clientId assigned

/-- The `setChats` executed on a successful `POST /requests` (lines
237-240): writes `ticketId`, `currentAgent` and `title` into
`{...prev[clientId], ...}` unconditionally. -/
def applyCreateSuccess (st : AppState) (clientId newTicketId : String)
    (assigned : Option String) (chatTitle : String) : AppState :=
  { st with chats := fun k =>
      if k = clientId then
        some (applyPatch ((st.chats clientId).getD emptyChat)
          { ticketId := some (some newTicketId)
            currentAgent := some (some (jsOrStr assigned "TriageAgent"))
            title := some chatTitle })
      else st.chats k }

/-- `handleSendMessage` (lines 211-256).  Oracles: `createRes` is the
outcome of `POST /requests` (used only on the no-ticket branch; `none` =
failure), `appendOk` the outcome of `POST /requests/{id}/messages` (used
only on the has-ticket branch), and `fetched`/`details` feed the
`fetchAgentReply` call made after a successful submission.  Returns the
new state together with the ticket-creation / message-append requests
issued. -/
def handleSendMessage (st : AppState) (api : Option String) (guestUserId : String)
    (messageContent : String) (msgId : String) (now : Nat)
    (createRes : Option CreateResp) (appendOk : Bool)
    (fetched : Option (List ServerMessage)) (details : DetailsOutcome)
    (errId : String) (errTs : Nat) (pollErrId : String) (pollErrTs : Nat) :
    AppState × List ApiRequest :=
  match activeChatOf st with
  | none => (st, [])
  | some activeChat =>
    if jsTrim messageContent = "" ∨ jsTruthy api = false then (st, [])
    else
      let userMessage : Message :=
        { id := msgId, sender := Sender.user, text := jsTrim messageContent
          agentName := none, timestamp := now }
      let st1 := addMessageToActiveChat st userMessage
      let st2 := updateActiveChatState st1 { isLoading := some true, linkStatus := some none }
      let clientId := activeChat.clientId
      if jsTruthy activeChat.ticketId = false then
        -- no ticket yet: POST /requests
        let req := ApiRequest.createTicket userMessage.text guestUserId clientId
        match createRes with
        | none =>
          let st3 := addMessageToActiveChat st2
            { id := errId, sender := Sender.agent, text := "Error sending message."
              agentName := some "System Error", timestamp := errTs }
          let st4 := updateActiveChatState st3 { currentAgent := some (some "System Error") }
          (updateActiveChatState st4 { isLoading := some false }, [req])
        | some resp =>
          let chatTitle := truncateText userMessage.text 25
          let st3 := applyCreateSuccess st2 clientId resp.id resp.assigned_agent chatTitle
          let st4 := fetchAgentReply st3 api clientId fetched details pollErrId pollErrTs
          (updateActiveChatState st4 { isLoading := some false }, [req])
      else
        -- existing ticket: POST /requests/{ticketId}/messages
        let t := activeChat.ticketId.getD ""
        let req := ApiRequest.appendMessage t userMessage.text guestUserId
        if appendOk then
          let st3 := fetchAgentReply st2 api clientId fetched details pollErrId pollErrTs
          (updateActiveChatState st3 { isLoading := some false }, [req])
        else
          let st3 := addMessageToActiveChat st2
            { id := errId, sender := Sender.agent, text := "Error sending message."
              agentName := some "System Error", timestamp := errTs }
          let st4 := updateActiveChatState st3 { currentAgent := some (some "System Error") }
          (updateActiveChatState st4 { isLoading := some false }, [req])

/-- The send path of the `ChatInput` component (lines 314-344): the
input and the Send button are disabled while `isLoading`, the Enter key
is gated by `!isLoading`, and `handleSend` only fires on a non-blank
input; only then is `handleSendMessage` invoked. -/
def chatInputSend (st : AppState) (api : Option String) (guestUserId : String)
    (localInputValue : String) (msgId : String) (now : Nat)
    (createRes : Option CreateResp) (appendOk : Bool)
    (fetched : Option (List ServerMessage)) (details : DetailsOutcome)
    (errId : String) (errTs : Nat) (pollErrId : String) (pollErrTs : Nat) :
    AppState × List ApiRequest :=
  let loading := ((activeChatOf st).map (fun c => c.isLoading)).getD false
  if loading = true ∨ jsTrim localInputValue = "" then (st, [])
  else handleSendMessage st api guestUserId localInputValue msgId now createRes appendOk
    fetched details errId errTs pollErrId pollErrTs

/-- `handleLinkTicket` (lines 258-280).  `promptResult` is the value of
`prompt(...)` (`null` or the entered string; an empty entry is falsy and
also cancels), `linkOk` the outcome of the mock linking step.  The final
deferred `setTimeout` clear of `linkStatus` is included as the last
step. -/
def handleLinkTicket (st : AppState) (ty : String) (promptResult : Option String)
    (linkOk : Bool) : AppState :=
  match activeChatOf st with
  | none => st
  | some activeChat =>
    if jsTruthy activeChat.ticketId = false ∨ activeChat.isLinking = true then st
    else
      let tkt := activeChat.ticketId.getD ""
      let st1 := updateActiveChatState st
        { isLinking := some true, linkStatus := some (some ("Linking to " ++ ty ++ "...")) }
      match promptResult with
      | none => updateActiveChatState st1 { isLinking := some false, linkStatus := some none }
      | some identifier =>
        if identifier = "" then
          updateActiveChatState st1 { isLinking := some false, linkStatus := some none }
        else
          let st2 :=
            if linkOk then
              updateActiveChatState st1
                { linkStatus := some (some ("Mock: Linking " ++ ty ++ ": " ++ identifier
                    ++ " to " ++ tkt ++ ". (Backend endpoint TBD)")) }
            else
              updateActiveChatState st1
                { linkStatus := some (some ("Mock: Failed to link " ++ ty ++ ".")) }
          let st3 := updateActiveChatState st2 { isLinking := some false }
          updateActiveChatState st3 { linkStatus := some none }

/-- `handleDeleteChat` (lines 295-310): refuse to delete the last chat,
otherwise drop the entry from `chats` and `chatOrder` and move the
active pointer to `chatOrder.find(id => id !== clientIdToDelete) || null`
when the deleted chat was active. -/
def handleDeleteChat (st : AppState) (clientIdToDelete : String) : AppState :=
  if st.chatOrder.length ≤ 1 then st
  else
    { chats := fun k => if k = clientIdToDelete then none else st.chats k
      chatOrder := st.chatOrder.filter (fun id => !(id == clientIdToDelete))
      activeChatClientId :=
        if st.activeChatClientId = some clientIdToDelete then
          st.chatOrder.find? (fun id => !(id == clientIdToDelete))
        else st.activeChatClientId }

/-- The freshly seeded collection built in both fallback branches of the
initial-load effect: one new chat, in order, active. -/
def freshSeed (newClientId welcomeId : String) (now : Nat) : AppState :=
  { chats := fun k =>
      if k = newClientId then some (createNewChatState newClientId welcomeId now) else none
    chatOrder := [newClientId]
    activeChatClientId := some newClientId }

/-- The initial-load effect (lines 93-125).  `savedChats` / `savedOrder` /
`savedActiveId` are the three `localStorage.getItem` results; `parsed` is
the outcome of `JSON.parse` on the first two (`none` = a parse threw, the
`catch` branch). -/
def initialLoad (savedChats savedOrder savedActiveId : Option String)
    (parsed : Option ((String → Option ChatState) × List String))
    (newClientId welcomeId : String) (now : Nat) : AppState :=
  if jsTruthy savedChats = true ∧ jsTruthy savedOrder = true then
    match parsed with
    | some pr =>
      let parsedChats := pr.1
      let parsedOrder := pr.2
      let fallback : Option String :=
        match parsedOrder with
        | [] => none
        | p :: _ => some p
      let active :=
        match savedActiveId with
        | some a => if a ≠ "" ∧ (parsedChats a).isSome then some a else fallback
        | none => fallback
      { chats := parsedChats, chatOrder := parsedOrder, activeChatClientId := active }
    | none => freshSeed newClientId welcomeId now
  else freshSeed newClientId welcomeId now

/-- Chronological order by timestamp (ties allowed). -/
def TsSorted (l : List Message) : Prop :=
  List.Pairwise (fun a b => a.timestamp ≤ b.timestamp) l

/-- No two entries of the list share a message id. -/
def NoDupIds (l : List Message) : Prop :=
  List.Pairwise (fun a b => a.id ≠ b.id) l

instance (l : List Message) : Decidable (TsSorted l) := by
  unfold TsSorted
  infer_instance

instance (l : List Message) : Decidable (NoDupIds l) := by
  unfold NoDupIds
  infer_instance

/-! ## Properties of the stable sort -/

theorem insertByTs_perm (x : Message) (l : List Message) :
    List.Perm (insertByTs x l) (x :: l) := by
  induction l with
  | nil => simp [insertByTs]
  | cons y ys ih =>
    by_cases h : x.timestamp < y.timestamp
    · simp [insertByTs, h]
    · simp only [insertByTs, if_neg h]
      exact (ih.cons y).trans (List.Perm.swap x y ys)

theorem foldl_insertByTs_perm (l acc : List Message) :
    List.Perm (l.foldl (fun a m => insertByTs m a) acc) (acc ++ l) := by
  induction l generalizing acc with
  | nil => simp
  | cons x xs ih =>
    simp only [List.foldl_cons]
    refine (ih (insertByTs x acc)).trans ?_
    refine (List.Perm.append_right xs (insertByTs_perm x acc)).trans ?_
    exact List.perm_middle.symm

theorem sortByTs_perm (l : List Message) : List.Perm (sortByTs l) l := by
  simpa [sortByTs] using foldl_insertByTs_perm l []

theorem insertByTs_sorted (x : Message) (l : List Message) (h : TsSorted l) :
    TsSorted (insertByTs x l) := by
  unfold TsSorted at *
  induction l with
  | nil => simp [insertByTs]
  | cons y ys ih =>
    rcases List.pairwise_cons.mp h with ⟨hy, hys⟩
    by_cases hlt : x.timestamp < y.timestamp
    · simp only [insertByTs, if_pos hlt]
      refine List.pairwise_cons.mpr ⟨?_, h⟩
      intro z hz
      rcases List.mem_cons.mp hz with rfl | hz'
      · exact Nat.le_of_lt hlt
      · exact Nat.le_trans (Nat.le_of_lt hlt) (hy z hz')
    · simp only [insertByTs, if_neg hlt]
      refine List.pairwise_cons.mpr ⟨?_, ih hys⟩
      intro z hz
      have hz' := (insertByTs_perm x ys).mem_iff.mp hz
      rcases List.mem_cons.mp hz' with rfl | hz''
      · exact Nat.le_of_not_lt hlt
      · exact hy z hz''

theorem foldl_insertByTs_sorted (l acc : List Message) (h : TsSorted acc) :
    TsSorted (l.foldl (fun a m => insertByTs m a) acc) := by
  induction l generalizing acc with
  | nil => simpa using h
  | cons x xs ih =>
    simp only [List.foldl_cons]
    exact ih _ (insertByTs_sorted x acc h)

theorem sortByTs_sorted (l : List Message) : TsSorted (sortByTs l) :=
  foldl_insertByTs_sorted l [] (by simp [TsSorted])

theorem insertByTs_of_max (x : Message) (l : List Message)
    (h : ∀ y ∈ l, y.timestamp ≤ x.timestamp) : insertByTs x l = l ++ [x] := by
  induction l with
  | nil => rfl
  | cons y ys ih =>
    have hy : y.timestamp ≤ x.timestamp := h y (List.mem_cons_self y ys)
    simp only [insertByTs, if_neg (Nat.not_lt.mpr hy), List.cons_append]
    rw [ih (fun z hz => h z (List.mem_cons_of_mem y hz))]

theorem foldl_insertByTs_of_sorted (l acc : List Message) (h : TsSorted (acc ++ l)) :
    l.foldl (fun a m => insertByTs m a) acc = acc ++ l := by
  unfold TsSorted at h
  induction l generalizing acc with
  | nil => simp
  | cons x xs ih =>
    have hmax : ∀ y ∈ acc, y.timestamp ≤ x.timestamp := by
      intro y hy
      exact (List.pairwise_append.mp h).2.2 y hy x (List.mem_cons_self x xs)
    simp only [List.foldl_cons, insertByTs_of_max x acc hmax]
    have h' : List.Pairwise (fun a b : Message => a.timestamp ≤ b.timestamp) ((acc ++ [x]) ++ xs) := by
      simpa [List.append_assoc] using h
    rw [ih (acc ++ [x]) h']
    simp

theorem sortByTs_of_sorted (l : List Message) (h : TsSorted l) : sortByTs l = l := by
  simpa [sortByTs] using foldl_insertByTs_of_sorted l [] (by simpa using h)

theorem sortByTs_append_of_max (l : List Message) (x : Message)
    (h : TsSorted l) (hmax : ∀ y ∈ l, y.timestamp ≤ x.timestamp) :
    sortByTs (l ++ [x]) = l ++ [x] := by
  apply sortByTs_of_sorted
  refine List.pairwise_append.mpr ⟨h, List.pairwise_singleton _ _, ?_⟩
  intro a ha b hb
  rcases List.mem_singleton.mp hb with rfl
  exact hmax a ha

theorem insertByTs_filter (x : Message) (l : List Message) (t : Nat) (h : TsSorted l) :
    (insertByTs x l).filter (fun m => m.timestamp == t)
      = l.filter (fun m => m.timestamp == t)
        ++ (if x.timestamp == t then [x] else []) := by
  unfold TsSorted at h
  induction l with
  | nil =>
    cases hxt : x.timestamp == t <;> simp [insertByTs, List.filter_cons, hxt]
  | cons y ys ih =>
    rcases List.pairwise_cons.mp h with ⟨hy, hys⟩
    by_cases hlt : x.timestamp < y.timestamp
    · simp only [insertByTs, if_pos hlt]
      by_cases hxt : (x.timestamp == t) = true
      · have hxt' : x.timestamp = t := by simpa using hxt
        have hnil : (y :: ys).filter (fun m => m.timestamp == t) = [] := by
          rw [List.filter_eq_nil_iff]
          intro z hz
          have hzts : y.timestamp ≤ z.timestamp := by
            rcases List.mem_cons.mp hz with rfl | hz'
            · exact Nat.le_refl _
            · exact hy z hz'
          have : t < z.timestamp := Nat.lt_of_lt_of_le (hxt' ▸ hlt) hzts
          simp [Nat.ne_of_gt this]
        simp [List.filter_cons, hxt, hnil]
      · simp [List.filter_cons, hxt]
    · simp only [insertByTs, if_neg hlt]
      by_cases hyt : (y.timestamp == t) = true
      · simp [List.filter_cons, hyt, ih hys]
      · simp [List.filter_cons, hyt, ih hys]

theorem foldl_insertByTs_filter (l acc : List Message) (t : Nat) (h : TsSorted acc) :
    (l.foldl (fun a m => insertByTs m a) acc).filter (fun m => m.timestamp == t)
      = acc.filter (fun m => m.timestamp == t) ++ l.filter (fun m => m.timestamp == t) := by
  induction l generalizing acc with
  | nil => simp
  | cons x xs ih =>
    simp only [List.foldl_cons]
    rw [ih (insertByTs x acc) (insertByTs_sorted x acc h), insertByTs_filter x acc t h]
    by_cases hx : (x.timestamp == t) = true
    · simp [List.filter_cons, hx, List.append_assoc]
    · simp [List.filter_cons, hx]

theorem sortByTs_filter (l : List Message) (t : Nat) :
    (sortByTs l).filter (fun m => m.timestamp == t) = l.filter (fun m => m.timestamp == t) := by
  simpa [sortByTs] using foldl_insertByTs_filter l [] t (by simp [TsSorted])

theorem mergeMessages_eq (existing incoming : List Message) :
    mergeMessages existing incoming
      = (if 0 < (incoming.filter (fun m => !(existing.any (fun e => e.id == m.id)))).length
         then sortByTs (existing ++ incoming.filter (fun m => !(existing.any (fun e => e.id == m.id))))
         else existing) := rfl

/-! ## C1: the poll-time merge -/

/-- C1, counterexample: the dedup filter of the merge only compares
incoming ids against `existing`, never within the incoming batch, so an
incoming batch that itself repeats an id yields a merged list with two
messages of the same id — the claimed consequence fails. -/
theorem c1_counterexample :
    ¬ NoDupIds (mergeMessages []
      [{ id := "x", sender := Sender.agent, text := "a", agentName := some "Agent", timestamp := 1 },
       { id := "x", sender := Sender.agent, text := "b", agentName := some "Agent", timestamp := 2 }]) := by
  decide

/-- Concrete inputs for the C1 witness: a sorted existing list and a batch
containing one already-seen id and one new message. -/
def c1ex : List Message :=
  [{ id := "w", sender := Sender.agent, text := "welcome", agentName := some "TriageAgent", timestamp := 0 }]

def c1in : List Message :=
  [{ id := "w", sender := Sender.agent, text := "dup", agentName := some "Agent", timestamp := 5 },
   { id := "m", sender := Sender.agent, text := "new", agentName := some "Agent", timestamp := 5 }]

/-- C1 (amended): for a timestamp-sorted existing list, and provided each
input is free of internal id-duplicates, the merge (i) keeps exactly the
messages of both inputs minus the incoming ones whose id already occurs
in `existing` (a permutation of the filtered concatenation), (ii) is
sorted by timestamp ascending, (iii) keeps, for every timestamp, the
existing messages before the incoming ones (stability), and (iv) contains
no two messages with the same id. -/
theorem c1_merge_properties (existing incoming : List Message) (t : Nat)
    (hsort : TsSorted existing) (hex : NoDupIds existing) (hin : NoDupIds incoming) :
    List.Perm (mergeMessages existing incoming)
      (existing ++ incoming.filter (fun m => !(existing.any (fun e => e.id == m.id))))
    ∧ TsSorted (mergeMessages existing incoming)
    ∧ (mergeMessages existing incoming).filter (fun m => m.timestamp == t)
        = existing.filter (fun m => m.timestamp == t)
          ++ (incoming.filter (fun m => !(existing.any (fun e => e.id == m.id)))).filter
              (fun m => m.timestamp == t)
    ∧ NoDupIds (mergeMessages existing incoming) := by
  have hex' : List.Pairwise (fun a b : Message => a.id ≠ b.id) existing := hex
  have hin' : List.Pairwise (fun a b : Message => a.id ≠ b.id) incoming := hin
  have hsym : Symmetric (fun a b : Message => a.id ≠ b.id) := fun _ _ h => Ne.symm h
  by_cases h : 0 < (incoming.filter (fun m => !(existing.any (fun e => e.id == m.id)))).length
  · have hme : mergeMessages existing incoming
        = sortByTs (existing ++ incoming.filter (fun m => !(existing.any (fun e => e.id == m.id)))) := by
      rw [mergeMessages_eq, if_pos h]
    have hnd : List.Pairwise (fun a b : Message => a.id ≠ b.id)
        (existing ++ incoming.filter (fun m => !(existing.any (fun e => e.id == m.id)))) := by
      refine List.pairwise_append.mpr ⟨hex', ?_, ?_⟩
      · exact List.Pairwise.sublist (List.filter_sublist incoming) hin'
      · intro a ha b hb hab
        have hpred := List.of_mem_filter hb
        have hfalse : existing.any (fun e => e.id == b.id) = false := by
          simpa using hpred
        have htrue : existing.any (fun e => e.id == b.id) = true :=
          List.any_eq_true.mpr ⟨a, ha, by simp [hab]⟩
        rw [htrue] at hfalse
        cases hfalse
    rw [hme]
    refine ⟨sortByTs_perm _, sortByTs_sorted _, ?_, ?_⟩
    · rw [sortByTs_filter, List.filter_append]
    · exact (List.Perm.pairwise_iff (fun h => Ne.symm h) (sortByTs_perm _)).mpr hnd
  · have h0 : incoming.filter (fun m => !(existing.any (fun e => e.id == m.id))) = [] :=
      List.length_eq_zero.mp (Nat.eq_zero_of_not_pos h)
    have hme : mergeMessages existing incoming = existing := by
      rw [mergeMessages_eq, if_neg h]
    rw [hme, h0]
    exact ⟨by simp, hsort, by simp, hex⟩

/-- Witness for `c1_merge_properties` at concrete inputs. -/
theorem c1_witness :
    TsSorted c1ex ∧ NoDupIds c1ex ∧ NoDupIds c1in ∧
      (List.Perm (mergeMessages c1ex c1in)
        (c1ex ++ c1in.filter (fun m => !(c1ex.any (fun e => e.id == m.id))))
      ∧ TsSorted (mergeMessages c1ex c1in)
      ∧ (mergeMessages c1ex c1in).filter (fun m => m.timestamp == 5)
          = c1ex.filter (fun m => m.timestamp == 5)
            ++ (c1in.filter (fun m => !(c1ex.any (fun e => e.id == m.id)))).filter
                (fun m => m.timestamp == 5)
      ∧ NoDupIds (mergeMessages c1ex c1in)) :=
  ⟨by decide, by decide, by decide,
    c1_merge_properties c1ex c1in 5 (by decide) (by decide) (by decide)⟩

/-! ## C2: idempotence of the merge -/

def c2w0 : Message :=
  { id := "w0", sender := Sender.agent
    text := "Welcome to FireCrawl Support! How can I help you today?"
    agentName := some "TriageAgent", timestamp := 0 }

def c2m1 : Message :=
  { id := "m1", sender := Sender.agent, text := "reply one", agentName := some "Agent", timestamp := 10 }

def c2m2 : Message :=
  { id := "m2", sender := Sender.agent, text := "reply two", agentName := some "Agent", timestamp := 20 }

def c2m3 : Message :=
  { id := "m3", sender := Sender.agent, text := "reply three", agentName := some "Agent", timestamp := 30 }

/-- C2: the poll-time merge is idempotent — `merge (merge a b) b = merge a b`
for all inputs — and merging the batch `[m1, m2]` and then the batch
`[m2, m3]` into a session holding the welcome message yields exactly
`m1`, `m2`, `m3` once each, ordered by timestamp. -/
theorem c2_merge_idempotent :
    (∀ a b : List Message, mergeMessages (mergeMessages a b) b = mergeMessages a b)
    ∧ mergeMessages (mergeMessages [c2w0] [c2m1, c2m2]) [c2m2, c2m3] = [c2w0, c2m1, c2m2, c2m3]
    ∧ NoDupIds (mergeMessages (mergeMessages [c2w0] [c2m1, c2m2]) [c2m2, c2m3]) := by
  refine ⟨?_, by decide, by decide⟩
  intro a b
  by_cases h : 0 < (b.filter (fun m => !(a.any (fun e => e.id == m.id)))).length
  · have hr : mergeMessages a b
        = sortByTs (a ++ b.filter (fun m => !(a.any (fun e => e.id == m.id)))) := by
      rw [mergeMessages_eq, if_pos h]
    have hnil : b.filter (fun m => !((mergeMessages a b).any (fun e => e.id == m.id))) = [] := by
      rw [List.filter_eq_nil_iff]
      intro m hm
      simp only [Bool.not_eq_true', Bool.not_eq_false]
      rw [List.any_eq_true]
      by_cases ha : a.any (fun e => e.id == m.id) = true
      · rcases List.any_eq_true.mp ha with ⟨e, he, hid⟩
        refine ⟨e, ?_, hid⟩
        rw [hr]
        exact (sortByTs_perm _).mem_iff.mpr (List.mem_append.mpr (Or.inl he))
      · have ha' : a.any (fun e => e.id == m.id) = false := by
          cases hb : a.any (fun e => e.id == m.id)
          · rfl
          · exact absurd hb ha
        refine ⟨m, ?_, by simp⟩
        rw [hr]
        exact (sortByTs_perm _).mem_iff.mpr
          (List.mem_append.mpr (Or.inr (List.mem_filter.mpr ⟨hm, by simp [ha']⟩)))
    rw [mergeMessages_eq (mergeMessages a b) b, hnil]
    simp
  · have h0 : b.filter (fun m => !(a.any (fun e => e.id == m.id))) = [] :=
      List.length_eq_zero.mp (Nat.eq_zero_of_not_pos h)
    have hr : mergeMessages a b = a := by
      rw [mergeMessages_eq, h0]
      simp
    rw [hr]
    exact hr

/-! ## C5: deleting the last session -/

/-- C5: when exactly one session remains, `handleDeleteChat` is rejected
and the whole store — `chats`, `chatOrder` and `activeChatClientId` — is
returned unchanged. -/
theorem c5_delete_last_noop (st : AppState) (cid : String)
    (h : st.chatOrder.length = 1) : handleDeleteChat st cid = st := by
  unfold handleDeleteChat
  rw [if_pos (by omega)]

def c5st : AppState :=
  { chats := fun k => if k = "c1" then some (createNewChatState "c1" "w1" 0) else none
    chatOrder := ["c1"]
    activeChatClientId := some "c1" }

/-- Witness for `c5_delete_last_noop` on a one-session store. -/
theorem c5_witness : c5st.chatOrder.length = 1 ∧ handleDeleteChat c5st "c1" = c5st :=
  ⟨rfl, c5_delete_last_noop c5st "c1" rfl⟩

/-! ## C10: the guard of `handleSendMessage` -/

/-- C10: when the API base URL is falsy or there is no active session,
`handleSendMessage` returns with the state unchanged and issues no
request — the user message is not appended and the session never starts
loading. -/
theorem c10_send_guard (st : AppState) (api : Option String)
    (guestUserId messageContent msgId : String) (now : Nat)
    (createRes : Option CreateResp) (appendOk : Bool)
    (fetched : Option (List ServerMessage)) (details : DetailsOutcome)
    (errId : String) (errTs : Nat) (pollErrId : String) (pollErrTs : Nat)
    (h : jsTruthy api = false ∨ activeChatOf st = none) :
    handleSendMessage st api guestUserId messageContent msgId now createRes appendOk
      fetched details errId errTs pollErrId pollErrTs = (st, []) := by
  rcases hA : activeChatOf st with _ | c
  · simp [handleSendMessage, hA]
  · have hapi : jsTruthy api = false := by
      rcases h with h | h
      · exact h
      · rw [hA] at h; cases h
    simp [handleSendMessage, hA, hapi]

def c10st : AppState :=
  { chats := fun _ => none, chatOrder := [], activeChatClientId := none }

/-- Witness for `c10_send_guard`: no API base URL, non-empty input. -/
theorem c10_witness :
    (jsTruthy none = false ∨ activeChatOf c10st = none)
    ∧ handleSendMessage c10st none "guest" "hello" "u1" 1 none true none DetailsOutcome.notOk "e" 2 "p" 3
        = (c10st, []) :=
  ⟨Or.inl rfl,
    c10_send_guard c10st none "guest" "hello" "u1" 1 none true none DetailsOutcome.notOk "e" 2 "p" 3 (Or.inl rfl)⟩

/-! ## C8: recovery from a corrupt persisted state -/

/-- C8: when both persisted entries are present but parsing fails
(`parsed = none`), the initial load re-seeds exactly one fresh session
and makes it active, instead of propagating the parse failure. -/
theorem c8_load_recovery (savedChats savedOrder savedActiveId : Option String)
    (newClientId welcomeId : String) (now : Nat) (k : String)
    (hk : k ≠ newClientId)
    (h1 : jsTruthy savedChats = true) (h2 : jsTruthy savedOrder = true) :
    initialLoad savedChats savedOrder savedActiveId none newClientId welcomeId now
        = freshSeed newClientId welcomeId now
    ∧ (freshSeed newClientId welcomeId now).chats newClientId
        = some (createNewChatState newClientId welcomeId now)
    ∧ (freshSeed newClientId welcomeId now).chats k = none
    ∧ (freshSeed newClientId welcomeId now).chatOrder = [newClientId]
    ∧ (freshSeed newClientId welcomeId now).activeChatClientId = some newClientId := by
  refine ⟨?_, by simp [freshSeed], by simp [freshSeed, hk], rfl, rfl⟩
  unfold initialLoad
  rw [if_pos ⟨h1, h2⟩]

/-- Witness for `c8_load_recovery` on concrete corrupt persisted data. -/
theorem c8_witness :
    ("other" ≠ "n1" ∧ jsTruthy (some "corrupt") = true ∧ jsTruthy (some "[broken") = true)
    ∧ (initialLoad (some "corrupt") (some "[broken") (some "a1") none "n1" "w1" 7
          = freshSeed "n1" "w1" 7
      ∧ (freshSeed "n1" "w1" 7).chats "n1" = some (createNewChatState "n1" "w1" 7)
      ∧ (freshSeed "n1" "w1" 7).chats "other" = none
      ∧ (freshSeed "n1" "w1" 7).chatOrder = ["n1"]
      ∧ (freshSeed "n1" "w1" 7).activeChatClientId = some "n1") :=
  ⟨⟨by decide, by decide, by decide⟩,
    c8_load_recovery (some "corrupt") (some "[broken") (some "a1") "n1" "w1" 7 "other"
      (by decide) (by decide) (by decide)⟩

/-! ## C6: updates for absent sessions -/

def c6st : AppState :=
  { chats := fun _ => none, chatOrder := ["x"], activeChatClientId := some "x" }

/-- C6, counterexample: `updateActiveChatState` only checks that the
active pointer is non-null, not that the pointed-to session exists.  When
the active clientId is absent from the collection, the update is *not* a
no-op: it inserts a new (partial) entry under that id. -/
theorem c6_counterexample :
    c6st.chats "x" = none
    ∧ (updateActiveChatState c6st { isLoading := some false }).chats "x"
        = some (applyPatch emptyChat { isLoading := some false }) := by
  constructor
  · rfl
  · simp [updateActiveChatState, c6st]

/-- C6 (amended): `updateActiveChatState` is a no-op when there is no
active clientId — that null check is its only guard; when the pointer
names an absent session it inserts a partial entry instead (see the
counterexample).  A poll for a clientId absent from the collection is a
genuine no-op provided the messages fetch succeeded and the details
fetch did not throw: both state writes of `fetchAgentReply` check the
session's presence first.  When the details fetch does throw, the
`catch` appends its error message to the then-active chat — not a no-op
on the store — but the deleted session's own entry stays absent whenever
the active pointer does not name it. -/
theorem c6_amended :
    (∀ (st : AppState) (p : ChatPatch), st.activeChatClientId = none →
      updateActiveChatState st p = st)
    ∧ (∀ (st : AppState) (api : Option String) (cid : String) (msgs : List ServerMessage)
        (d : DetailsOutcome) (errId : String) (errTs : Nat),
        st.chats cid = none → d ≠ DetailsOutcome.threw →
        fetchAgentReply st api cid (some msgs) d errId errTs = st)
    ∧ (∀ (st : AppState) (api : Option String) (cid : String) (msgs : List ServerMessage)
        (errId : String) (errTs : Nat),
        st.chats cid = none → st.activeChatClientId ≠ some cid →
        (fetchAgentReply st api cid (some msgs) DetailsOutcome.threw errId errTs).chats cid
          = none) := by
  refine ⟨?_, ?_, ?_⟩
  · intro st p h
    simp [updateActiveChatState, h]
  · intro st api cid msgs d errId errTs hdel hnt
    have hm : fetchMergeStep st cid msgs = st := by
      unfold fetchMergeStep
      rw [hdel]
      simp
    unfold fetchAgentReply
    by_cases hg : jsTruthy api = false ∨ cid = ""
    · rw [if_pos hg]
    · rw [if_neg hg]
      rcases d with _ | _ | a
      · exact absurd rfl hnt
      · exact hm
      · have hd : fetchDetailsStep st cid a = st := by
          unfold fetchDetailsStep
          rw [hdel]
        show fetchDetailsStep (fetchMergeStep st cid msgs) cid a = st
        rw [hm]
        exact hd
  · intro st api cid msgs errId errTs hdel hact
    have hm : fetchMergeStep st cid msgs = st := by
      unfold fetchMergeStep
      rw [hdel]
      simp
    unfold fetchAgentReply
    by_cases hg : jsTruthy api = false ∨ cid = ""
    · rw [if_pos hg]
      exact hdel
    · rw [if_neg hg]
      show (addMessageToActiveChat (fetchMergeStep st cid msgs)
        { id := errId, sender := Sender.agent, text := "Error fetching reply."
          agentName := some "System Error", timestamp := errTs }).chats cid = none
      rw [hm]
      rcases hA : st.activeChatClientId with _ | aid
      · simp [addMessageToActiveChat, hA, hdel]
      · have haid : aid ≠ cid := by
          intro h
          exact hact (by rw [hA, h])
        simp only [addMessageToActiveChat, hA]
        rw [if_neg (fun h => haid h.symm)]
        exact hdel

def c6stw : AppState :=
  { chats := fun _ => none, chatOrder := [], activeChatClientId := none }

/-- Witness for `c6_amended` on a concrete store. -/
theorem c6_witness :
    (c6stw.activeChatClientId = none ∧ c6stw.chats "gone" = none
      ∧ DetailsOutcome.notOk ≠ DetailsOutcome.threw
      ∧ c6stw.activeChatClientId ≠ some "gone")
    ∧ updateActiveChatState c6stw { isLoading := some true } = c6stw
    ∧ fetchAgentReply c6stw (some "http://api") "gone" (some []) DetailsOutcome.notOk "e" 9
        = c6stw
    ∧ (fetchAgentReply c6stw (some "http://api") "gone" (some []) DetailsOutcome.threw
        "e" 9).chats "gone" = none :=
  ⟨⟨rfl, rfl, by decide, by decide⟩,
    c6_amended.1 c6stw { isLoading := some true } rfl,
    c6_amended.2.1 c6stw (some "http://api") "gone" [] DetailsOutcome.notOk "e" 9 rfl
      (by decide),
    c6_amended.2.2 c6stw (some "http://api") "gone" [] "e" 9 rfl (by decide)⟩

/-! ## C3: the send guard and the Sending gate -/

def c3chat : ChatState :=
  { clientId := "c1", ticketId := none
    messages := [{ id := "w1", sender := Sender.agent, text := "welcome"
                   agentName := some "TriageAgent", timestamp := 0 }]
    currentAgent := some "TriageAgent", isLoading := true, linkStatus := none
    isLinking := false, title := "Chat c1..." }

def c3st : AppState :=
  { chats := fun k => if k = "c1" then some c3chat else none
    chatOrder := ["c1"]
    activeChatClientId := some "c1" }

/-- C3, counterexample: `handleSendMessage` never consults the session's
`Sending` state (`isLoading`).  Invoked on a session that is already
loading (a first send still in flight, its ticket not yet assigned), the
call goes ahead: it issues another ticket-creation request and mutates
the session, instead of being a no-op. -/
theorem c3_counterexample :
    c3chat.isLoading = true
    ∧ (handleSendMessage c3st (some "http://api") "guest" "hi" "u2" 5
        (some { id := "T9", assigned_agent := none }) true none DetailsOutcome.notOk "e" 6 "p" 7).2
        = [ApiRequest.createTicket "hi" "guest" "c1"]
    ∧ ((handleSendMessage c3st (some "http://api") "guest" "hi" "u2" 5
        (some { id := "T9", assigned_agent := none }) true none DetailsOutcome.notOk "e" 6 "p" 7).1.chats "c1").map
          (fun c => c.ticketId) = some (some "T9") := by
  refine ⟨rfl, ?_, ?_⟩ <;> decide

/-- C3 (amended): `handleSendMessage` itself is a no-op on
empty/whitespace-only text (and on a missing active session or API URL,
see C10), but it has no `Sending` gate; that gate lives in the
`ChatInput` component, whose send path refuses to fire while the active
session `isLoading`, so a second *UI-level* send during an in-flight one
changes nothing and issues no request. -/
theorem c3_amended :
    (∀ (st : AppState) (api : Option String) (guestUserId messageContent msgId : String)
        (now : Nat) (createRes : Option CreateResp) (appendOk : Bool)
        (fetched : Option (List ServerMessage)) (details : DetailsOutcome)
        (errId : String) (errTs : Nat) (pollErrId : String) (pollErrTs : Nat),
        jsTrim messageContent = "" →
        handleSendMessage st api guestUserId messageContent msgId now createRes appendOk
          fetched details errId errTs pollErrId pollErrTs = (st, []))
    ∧ (∀ (st : AppState) (api : Option String) (guestUserId localInputValue msgId : String)
        (now : Nat) (createRes : Option CreateResp) (appendOk : Bool)
        (fetched : Option (List ServerMessage)) (details : DetailsOutcome)
        (errId : String) (errTs : Nat) (pollErrId : String) (pollErrTs : Nat),
        ((activeChatOf st).map (fun c => c.isLoading)).getD false = true →
        chatInputSend st api guestUserId localInputValue msgId now createRes appendOk
          fetched details errId errTs pollErrId pollErrTs = (st, [])) := by
  constructor
  · intro st api g mc msgId now cr ao f d e1 e2 p1 p2 h
    rcases hA : activeChatOf st with _ | c
    · simp [handleSendMessage, hA]
    · simp [handleSendMessage, hA, h]
  · intro st api g liv msgId now cr ao f d e1 e2 p1 p2 h
    unfold chatInputSend
    rw [if_pos (Or.inl h)]

/-- Witness for `c3_amended`: a whitespace-only direct call, and a
UI-level send against the loading session of `c3st`. -/
theorem c3_witness :
    ((jsTrim "  " = "")
      ∧ ((activeChatOf c3st).map (fun c => c.isLoading)).getD false = true)
    ∧ handleSendMessage c3st (some "http://api") "guest" "  " "u3" 8 none true none DetailsOutcome.notOk
        "e" 9 "p" 10 = (c3st, [])
    ∧ chatInputSend c3st (some "http://api") "guest" "hi" "u3" 8 none true none DetailsOutcome.notOk
        "e" 9 "p" 10 = (c3st, []) :=
  ⟨⟨by decide, by decide⟩,
    c3_amended.1 c3st (some "http://api") "guest" "  " "u3" 8 none true none DetailsOutcome.notOk
      "e" 9 "p" 10 (by decide),
    c3_amended.2 c3st (some "http://api") "guest" "hi" "u3" 8 none true none DetailsOutcome.notOk
      "e" 9 "p" 10 (by decide)⟩

/-! ## Frame machinery for the linking flow -/

/-- `s` agrees with `t` on everything except possibly the `isLinking` and
`linkStatus` fields of the sessions: every session's `clientId`,
`ticketId`, `messages`, `currentAgent`, `isLoading` and `title` (and the
presence of the session itself), plus the order and the active pointer,
are unchanged. -/
def SessionFrame (s t : AppState) : Prop :=
  (∀ k, ((s.chats k).map (fun c => c.clientId)) = ((t.chats k).map (fun c => c.clientId))
      ∧ ((s.chats k).map (fun c => c.ticketId)) = ((t.chats k).map (fun c => c.ticketId))
      ∧ ((s.chats k).map (fun c => c.messages)) = ((t.chats k).map (fun c => c.messages))
      ∧ ((s.chats k).map (fun c => c.currentAgent)) = ((t.chats k).map (fun c => c.currentAgent))
      ∧ ((s.chats k).map (fun c => c.isLoading)) = ((t.chats k).map (fun c => c.isLoading))
      ∧ ((s.chats k).map (fun c => c.title)) = ((t.chats k).map (fun c => c.title)))
  ∧ s.chatOrder = t.chatOrder
  ∧ s.activeChatClientId = t.activeChatClientId

theorem sessionFrame_refl (s : AppState) : SessionFrame s s :=
  ⟨fun _ => ⟨rfl, rfl, rfl, rfl, rfl, rfl⟩, rfl, rfl⟩

theorem sessionFrame_trans {a b c : AppState}
    (hab : SessionFrame a b) (hbc : SessionFrame b c) : SessionFrame a c := by
  refine ⟨fun k => ?_, hab.2.1.trans hbc.2.1, hab.2.2.trans hbc.2.2⟩
  rcases hab.1 k with ⟨h1, h2, h3, h4, h5, h6⟩
  rcases hbc.1 k with ⟨g1, g2, g3, g4, g5, g6⟩
  exact ⟨h1.trans g1, h2.trans g2, h3.trans g3, h4.trans g4, h5.trans g5, h6.trans g6⟩

/-- One `updateActiveChatState` whose patch touches only `isLinking` and
`linkStatus` is a session frame, provided the active session (if any) is
present in the collection. -/
theorem sessionFrame_update (st : AppState) (p : ChatPatch)
    (h1 : p.clientId = none) (h2 : p.ticketId = none) (h3 : p.messages = none)
    (h4 : p.currentAgent = none) (h5 : p.isLoading = none) (h6 : p.title = none)
    (hpres : ∀ aid, st.activeChatClientId = some aid → st.chats aid ≠ none) :
    SessionFrame (updateActiveChatState st p) st := by
  rcases hA : st.activeChatClientId with _ | aid
  · have he : updateActiveChatState st p = st := by
      simp [updateActiveChatState, hA]
    rw [he]
    exact sessionFrame_refl st
  · rcases hO : st.chats aid with _ | c
    · exact absurd hO (hpres aid hA)
    · refine ⟨fun k => ?_, ?_, ?_⟩
      · by_cases hk : k = aid
        · subst hk
          have he : (updateActiveChatState st p).chats k = some (applyPatch c p) := by
            simp [updateActiveChatState, hA, hO]
          rw [he, hO]
          simp [applyPatch, h1, h2, h3, h4, h5, h6]
        · have he : (updateActiveChatState st p).chats k = st.chats k := by
            simp [updateActiveChatState, hA, hk]
          rw [he]
          exact ⟨rfl, rfl, rfl, rfl, rfl, rfl⟩
      · simp [updateActiveChatState, hA]
      · simp [updateActiveChatState, hA]

/-- A session frame preserves presence of the active session. -/
theorem sessionFrame_pres {s t : AppState} (h : SessionFrame s t)
    (hpres : ∀ aid, t.activeChatClientId = some aid → t.chats aid ≠ none) :
    ∀ aid, s.activeChatClientId = some aid → s.chats aid ≠ none := by
  intro aid ha hc
  have h2 := (h.1 aid).1
  rw [hc] at h2
  have ht : t.chats aid = none := by
    rcases hO : t.chats aid with _ | c
    · rfl
    · rw [hO] at h2; cases h2
  exact hpres aid (by rw [← h.2.2]; exact ha) ht

/-! ## C9: linking never touches the conversation state -/

/-- C9: for every state and every run of the linking flow — prompt
cancelled, empty, or answered, mock step succeeding or failing, including
the deferred status clear — the resulting state agrees with the original
on every session's `ticketId`, message list, `clientId`, `currentAgent`,
`isLoading` and `title`, as well as on the order and the active pointer:
linking writes only `isLinking` and `linkStatus`. -/
theorem c9_link_frame (st : AppState) (ty : String) (promptResult : Option String)
    (linkOk : Bool) : SessionFrame (handleLinkTicket st ty promptResult linkOk) st := by
  rcases hA : st.activeChatClientId with _ | aid
  · have hAC : activeChatOf st = none := by
      unfold activeChatOf
      rw [hA]
    simp only [handleLinkTicket, hAC]
    exact sessionFrame_refl st
  · rcases hC : st.chats aid with _ | c
    · have hAC : activeChatOf st = none := by
        unfold activeChatOf
        rw [hA]
        exact hC
      simp only [handleLinkTicket, hAC]
      exact sessionFrame_refl st
    · have hAC : activeChatOf st = some c := by
        unfold activeChatOf
        rw [hA]
        exact hC
      have hpres0 : ∀ a, st.activeChatClientId = some a → st.chats a ≠ none := by
        intro a ha
        rw [hA] at ha
        injection ha with ha'
        rw [← ha', hC]
        simp
      by_cases hg : jsTruthy c.ticketId = false ∨ c.isLinking = true
      · simp only [handleLinkTicket, hAC]
        rw [if_pos hg]
        exact sessionFrame_refl st
      · have f1 : SessionFrame (updateActiveChatState st
            { isLinking := some true
              linkStatus := some (some ("Linking to " ++ ty ++ "...")) }) st :=
          sessionFrame_update st _ rfl rfl rfl rfl rfl rfl hpres0
        have p1 := sessionFrame_pres f1 hpres0
        rcases promptResult with _ | ident
        · simp only [handleLinkTicket, hAC]
          rw [if_neg hg]
          exact sessionFrame_trans
            (sessionFrame_update _ _ rfl rfl rfl rfl rfl rfl p1) f1
        · by_cases hid : ident = ""
          · simp only [handleLinkTicket, hAC]
            rw [if_neg hg, if_pos hid]
            exact sessionFrame_trans
              (sessionFrame_update _ _ rfl rfl rfl rfl rfl rfl p1) f1
          · by_cases hok : linkOk = true
            · simp only [handleLinkTicket, hAC]
              rw [if_neg hg, if_neg hid, if_pos hok]
              have f2 := sessionFrame_update (updateActiveChatState st
                  { isLinking := some true
                    linkStatus := some (some ("Linking to " ++ ty ++ "...")) })
                  { linkStatus := some (some ("Mock: Linking " ++ ty ++ ": " ++ ident
                      ++ " to " ++ c.ticketId.getD "" ++ ". (Backend endpoint TBD)")) }
                  rfl rfl rfl rfl rfl rfl p1
              have p2 := sessionFrame_pres f2 p1
              have f3 := sessionFrame_update _ { isLinking := some false }
                rfl rfl rfl rfl rfl rfl p2
              have p3 := sessionFrame_pres f3 p2
              have f4 := sessionFrame_update _ { linkStatus := some none }
                rfl rfl rfl rfl rfl rfl p3
              exact sessionFrame_trans f4
                (sessionFrame_trans f3 (sessionFrame_trans f2 f1))
            · have hok' : linkOk = false := by
                cases linkOk
                · rfl
                · exact absurd rfl hok
              simp only [handleLinkTicket, hAC]
              rw [if_neg hg, if_neg hid, hok']
              simp only [Bool.false_eq_true, if_false]
              have f2 := sessionFrame_update (updateActiveChatState st
                  { isLinking := some true
                    linkStatus := some (some ("Linking to " ++ ty ++ "...")) })
                  { linkStatus := some (some ("Mock: Failed to link " ++ ty ++ ".")) }
                  rfl rfl rfl rfl rfl rfl p1
              have p2 := sessionFrame_pres f2 p1
              have f3 := sessionFrame_update _ { isLinking := some false }
                rfl rfl rfl rfl rfl rfl p2
              have p3 := sessionFrame_pres f3 p2
              have f4 := sessionFrame_update _ { linkStatus := some none }
                rfl rfl rfl rfl rfl rfl p3
              exact sessionFrame_trans f4
                (sessionFrame_trans f3 (sessionFrame_trans f2 f1))

/-! ## Frame machinery for `ticketId` -/

/-- `s` agrees with `t` on every session's `ticketId` (and presence) and
on the active pointer. -/
def TicketFrame (s t : AppState) : Prop :=
  (∀ k, (s.chats k).map (fun c => c.ticketId) = (t.chats k).map (fun c => c.ticketId))
  ∧ s.activeChatClientId = t.activeChatClientId

theorem ticketFrame_refl (s : AppState) : TicketFrame s s := ⟨fun _ => rfl, rfl⟩

theorem ticketFrame_trans {a b c : AppState}
    (hab : TicketFrame a b) (hbc : TicketFrame b c) : TicketFrame a c :=
  ⟨fun k => (hab.1 k).trans (hbc.1 k), hab.2.trans hbc.2⟩

theorem ticketFrame_pres {s t : AppState} (h : TicketFrame s t)
    (hpres : ∀ aid, t.activeChatClientId = some aid → t.chats aid ≠ none) :
    ∀ aid, s.activeChatClientId = some aid → s.chats aid ≠ none := by
  intro aid ha hc
  have h2 := h.1 aid
  rw [hc] at h2
  have ht : t.chats aid = none := by
    rcases hO : t.chats aid with _ | c2
    · rfl
    · rw [hO] at h2; cases h2
  exact hpres aid (by rw [← h.2]; exact ha) ht

theorem ticketFrame_update (st : AppState) (p : ChatPatch) (hp : p.ticketId = none)
    (hpres : ∀ aid, st.activeChatClientId = some aid → st.chats aid ≠ none) :
    TicketFrame (updateActiveChatState st p) st := by
  rcases hA : st.activeChatClientId with _ | aid
  · have he : updateActiveChatState st p = st := by
      simp [updateActiveChatState, hA]
    rw [he]; exact ticketFrame_refl st
  · rcases hO : st.chats aid with _ | c
    · exact absurd hO (hpres aid hA)
    · refine ⟨fun k => ?_, by simp [updateActiveChatState, hA]⟩
      by_cases hk : k = aid
      · subst hk
        have he : (updateActiveChatState st p).chats k = some (applyPatch c p) := by
          simp [updateActiveChatState, hA, hO]
        rw [he, hO]
        simp [applyPatch, hp]
      · have he : (updateActiveChatState st p).chats k = st.chats k := by
          simp [updateActiveChatState, hA, hk]
        rw [he]

theorem ticketFrame_addMessage (st : AppState) (m : Message)
    (hpres : ∀ aid, st.activeChatClientId = some aid → st.chats aid ≠ none) :
    TicketFrame (addMessageToActiveChat st m) st := by
  rcases hA : st.activeChatClientId with _ | aid
  · have he : addMessageToActiveChat st m = st := by
      simp [addMessageToActiveChat, hA]
    rw [he]; exact ticketFrame_refl st
  · rcases hO : st.chats aid with _ | c
    · exact absurd hO (hpres aid hA)
    · refine ⟨fun k => ?_, by simp [addMessageToActiveChat, hA]⟩
      by_cases hk : k = aid
      · subst hk
        have he : (addMessageToActiveChat st m).chats k
            = some (applyPatch ((st.chats k).getD emptyChat)
                { messages := some (sortByTs (((st.chats k).map (fun c => c.messages)).getD [] ++ [m])) }) := by
          simp [addMessageToActiveChat, hA]
        rw [he, hO]
        simp [applyPatch]
      · have he : (addMessageToActiveChat st m).chats k = st.chats k := by
          simp [addMessageToActiveChat, hA, hk]
        rw [he]

theorem ticketFrame_setMessages (st : AppState) (cid : String) (tc : ChatState) (M : List Message)
    (hO : st.chats cid = some tc) :
    TicketFrame { st with chats := fun k => if k = cid then some { tc with messages := M } else st.chats k } st := by
  refine ⟨fun k => ?_, rfl⟩
  by_cases hk : k = cid
  · subst hk; simp [hO]
  · simp [hk]

theorem ticketFrame_setAgent (st : AppState) (cid : String) (tc : ChatState) (A : Option String)
    (hO : st.chats cid = some tc) :
    TicketFrame { st with chats := fun k => if k = cid then some { tc with currentAgent := A } else st.chats k } st := by
  refine ⟨fun k => ?_, rfl⟩
  by_cases hk : k = cid
  · subst hk; simp [hO]
  · simp [hk]

theorem ticketFrame_fetchMerge (st : AppState) (cid : String) (fetched : List ServerMessage) :
    TicketFrame (fetchMergeStep st cid fetched) st := by
  unfold fetchMergeStep
  split
  · dsimp only
    split
    · exact ticketFrame_refl st
    · exact ticketFrame_refl st
  · next tc hTC =>
    dsimp only
    split
    · exact ticketFrame_setMessages st cid tc _ hTC
    · exact ticketFrame_refl st

theorem ticketFrame_fetchDetails (st : AppState) (cid : String) (assigned : Option String) :
    TicketFrame (fetchDetailsStep st cid assigned) st := by
  unfold fetchDetailsStep
  split
  · exact ticketFrame_refl st
  · next tc hTC => exact ticketFrame_setAgent st cid tc _ hTC

theorem ticketFrame_fetchAgentReply (st : AppState) (api : Option String) (cid : String)
    (fetched : Option (List ServerMessage)) (details : DetailsOutcome)
    (errId : String) (errTs : Nat)
    (hpres : ∀ aid, st.activeChatClientId = some aid → st.chats aid ≠ none) :
    TicketFrame (fetchAgentReply st api cid fetched details errId errTs) st := by
  rcases details with _ | _ | a
  · unfold fetchAgentReply
    split
    · exact ticketFrame_refl st
    · split
      · exact ticketFrame_addMessage st _ hpres
      · next msgs =>
        exact ticketFrame_trans
          (ticketFrame_addMessage (fetchMergeStep st cid msgs) _
            (ticketFrame_pres (ticketFrame_fetchMerge st cid msgs) hpres))
          (ticketFrame_fetchMerge st cid msgs)
  · unfold fetchAgentReply
    split
    · exact ticketFrame_refl st
    · split
      · exact ticketFrame_addMessage st _ hpres
      · next msgs => exact ticketFrame_fetchMerge st cid msgs
  · unfold fetchAgentReply
    split
    · exact ticketFrame_refl st
    · split
      · exact ticketFrame_addMessage st _ hpres
      · next msgs =>
        exact ticketFrame_trans
          (ticketFrame_fetchDetails (fetchMergeStep st cid msgs) cid a)
          (ticketFrame_fetchMerge st cid msgs)

/-- The create-success write of lines 237-240 always stores the new
ticket id under the written key, keeps the pointer, and leaves the entry
present. -/
theorem applyCreateSuccess_ticketId (st : AppState) (cid tid : String)
    (ag : Option String) (ti : String) :
    ((applyCreateSuccess st cid tid ag ti).chats cid).map (fun c => c.ticketId) = some (some tid)
    ∧ (applyCreateSuccess st cid tid ag ti).activeChatClientId = st.activeChatClientId
    ∧ (applyCreateSuccess st cid tid ag ti).chats cid ≠ none := by
  refine ⟨?_, rfl, ?_⟩ <;> simp [applyCreateSuccess, applyPatch]

/-! ## C4: ticket id assignment -/

def c4chat : ChatState :=
  { clientId := "c1", ticketId := none, messages := [], currentAgent := some "TriageAgent"
    isLoading := true, linkStatus := none, isLinking := false, title := "t" }

def c4st : AppState :=
  { chats := fun k => if k = "c1" then some c4chat else none
    chatOrder := ["c1"]
    activeChatClientId := some "c1" }

/-- C4, counterexample: the create-ticket success write (lines 237-240)
stores the response's id unconditionally, without checking whether
`ticketId` is already present.  With two creates in flight on the same
session (both passed the no-ticket check before either landed), the first
success stores `T1` and the second then overwrites it with `T2` — the
last success wins, not the first, and `ticketId` changes after being
set. -/
theorem c4_counterexample :
    (((applyCreateSuccess c4st "c1" "T1" none "Hello").chats "c1").map (fun c => c.ticketId)
        = some (some "T1"))
    ∧ (((applyCreateSuccess (applyCreateSuccess c4st "c1" "T1" none "Hello")
          "c1" "T2" none "Hello").chats "c1").map (fun c => c.ticketId)
        = some (some "T2"))
    ∧ (some (some "T2") : Option (Option String)) ≠ some (some "T1") := by
  refine ⟨?_, ?_, ?_⟩ <;> decide

/-- C4 (amended): within a single (serialized) send, `ticketId` behaves
as claimed: a send on a session without a ticket whose create succeeds
ends with `ticketId` equal to the response id, and any complete send on a
session whose `ticketId` is already (truthily) set leaves it unchanged —
the append branch and the poll never write it.  The claimed
first-success-wins protection for two *concurrent* creates does not exist
(see the counterexample): the success handler overwrites unconditionally. -/
theorem c4_ticket_transition :
    (∀ (st : AppState) (aid : String) (c : ChatState) (api : Option String)
        (guestUserId messageContent msgId : String) (now : Nat) (resp : CreateResp)
        (appendOk : Bool) (fetched : Option (List ServerMessage)) (details : DetailsOutcome)
        (errId : String) (errTs : Nat) (pollErrId : String) (pollErrTs : Nat),
        st.activeChatClientId = some aid → st.chats aid = some c → c.clientId = aid →
        jsTruthy c.ticketId = false → jsTrim messageContent ≠ "" → jsTruthy api = true →
        (((handleSendMessage st api guestUserId messageContent msgId now (some resp) appendOk
            fetched details errId errTs pollErrId pollErrTs).1.chats aid).map
              (fun x => x.ticketId)) = some (some resp.id))
    ∧ (∀ (st : AppState) (aid : String) (c : ChatState) (api : Option String)
        (guestUserId messageContent msgId : String) (now : Nat)
        (createRes : Option CreateResp) (appendOk : Bool)
        (fetched : Option (List ServerMessage)) (details : DetailsOutcome)
        (errId : String) (errTs : Nat) (pollErrId : String) (pollErrTs : Nat),
        st.activeChatClientId = some aid → st.chats aid = some c → c.clientId = aid →
        jsTruthy c.ticketId = true →
        (((handleSendMessage st api guestUserId messageContent msgId now createRes appendOk
            fetched details errId errTs pollErrId pollErrTs).1.chats aid).map
              (fun x => x.ticketId)) = some c.ticketId) := by
  constructor
  · intro st aid c api g mc msgId now resp ao f d e1 e2 p1 p2 hA hC hcl htk htrim hapi
    have hAC : activeChatOf st = some c := by
      unfold activeChatOf
      rw [hA]
      exact hC
    have hpres0 : ∀ a, st.activeChatClientId = some a → st.chats a ≠ none := by
      intro a ha
      rw [hA] at ha
      injection ha with ha'
      rw [← ha', hC]
      simp
    have hng : ¬(jsTrim mc = "" ∨ jsTruthy api = false) := by
      rw [hapi]
      simp [htrim]
    simp only [handleSendMessage, hAC]
    rw [if_neg hng, if_pos htk, hcl]
    have tf1 := ticketFrame_addMessage st
      { id := msgId, sender := Sender.user, text := jsTrim mc, agentName := none, timestamp := now }
      hpres0
    have pres1 := ticketFrame_pres tf1 hpres0
    have tf2 := ticketFrame_update
      (addMessageToActiveChat st
        { id := msgId, sender := Sender.user, text := jsTrim mc, agentName := none, timestamp := now })
      { isLoading := some true, linkStatus := some none } rfl pres1
    have pres2 := ticketFrame_pres tf2 pres1
    set st2 := updateActiveChatState
      (addMessageToActiveChat st
        { id := msgId, sender := Sender.user, text := jsTrim mc, agentName := none, timestamp := now })
      { isLoading := some true, linkStatus := some none } with hst2
    set st3 := applyCreateSuccess st2 aid resp.id resp.assigned_agent
      (truncateText (jsTrim mc) 25) with hst3
    have hval3 := applyCreateSuccess_ticketId st2 aid resp.id resp.assigned_agent
      (truncateText (jsTrim mc) 25)
    have hact3 : st3.activeChatClientId = some aid := by
      rw [hst3, hval3.2.1, hst2, tf2.2, tf1.2]
      exact hA
    have pres3 : ∀ a, st3.activeChatClientId = some a → st3.chats a ≠ none := by
      intro a ha
      rw [hact3] at ha
      injection ha with ha'
      rw [← ha']
      exact hval3.2.2
    have tf4 := ticketFrame_fetchAgentReply st3 api aid f d p1 p2 pres3
    have pres4 := ticketFrame_pres tf4 pres3
    have tf5 := ticketFrame_update (fetchAgentReply st3 api aid f d p1 p2)
      { isLoading := some false } rfl pres4
    exact (tf5.1 aid).trans ((tf4.1 aid).trans hval3.1)
  · intro st aid c api g mc msgId now cr ao f d e1 e2 p1 p2 hA hC hcl htk
    have hAC : activeChatOf st = some c := by
      unfold activeChatOf
      rw [hA]
      exact hC
    have hpres0 : ∀ a, st.activeChatClientId = some a → st.chats a ≠ none := by
      intro a ha
      rw [hA] at ha
      injection ha with ha'
      rw [← ha', hC]
      simp
    have htk' : ¬(jsTruthy c.ticketId = false) := by
      rw [htk]
      simp
    simp only [handleSendMessage, hAC]
    by_cases hg : jsTrim mc = "" ∨ jsTruthy api = false
    · rw [if_pos hg]
      rw [hC]
      rfl
    · rw [if_neg hg, if_neg htk']
      have tf1 := ticketFrame_addMessage st
        { id := msgId, sender := Sender.user, text := jsTrim mc, agentName := none, timestamp := now }
        hpres0
      have pres1 := ticketFrame_pres tf1 hpres0
      have tf2 := ticketFrame_update
        (addMessageToActiveChat st
          { id := msgId, sender := Sender.user, text := jsTrim mc, agentName := none, timestamp := now })
        { isLoading := some true, linkStatus := some none } rfl pres1
      have pres2 := ticketFrame_pres tf2 pres1
      set st2 := updateActiveChatState
        (addMessageToActiveChat st
          { id := msgId, sender := Sender.user, text := jsTrim mc, agentName := none, timestamp := now })
        { isLoading := some true, linkStatus := some none } with hst2
      have hbase : (st2.chats aid).map (fun x => x.ticketId) = some c.ticketId := by
        rw [(tf2.1 aid).trans (tf1.1 aid), hC]
        rfl
      cases ao
      · rw [if_neg (by simp : ¬((false : Bool) = true))]
        have tf3 := ticketFrame_addMessage st2
          { id := e1, sender := Sender.agent, text := "Error sending message."
            agentName := some "System Error", timestamp := e2 } pres2
        have pres3 := ticketFrame_pres tf3 pres2
        have tf4 := ticketFrame_update _ { currentAgent := some (some "System Error") } rfl pres3
        have pres4 := ticketFrame_pres tf4 pres3
        have tf5 := ticketFrame_update _ { isLoading := some false } rfl pres4
        exact (tf5.1 aid).trans ((tf4.1 aid).trans ((tf3.1 aid).trans hbase))
      · rw [if_pos rfl, hcl]
        have tf3 := ticketFrame_fetchAgentReply st2 api aid f d p1 p2 pres2
        have pres3 := ticketFrame_pres tf3 pres2
        have tf4 := ticketFrame_update _ { isLoading := some false } rfl pres3
        exact (tf4.1 aid).trans ((tf3.1 aid).trans hbase)

def c4chat2 : ChatState :=
  { clientId := "c1", ticketId := some "T1", messages := [], currentAgent := some "Agent"
    isLoading := false, linkStatus := none, isLinking := false, title := "t" }

def c4st2 : AppState :=
  { chats := fun k => if k = "c1" then some c4chat2 else none
    chatOrder := ["c1"]
    activeChatClientId := some "c1" }

/-- Witness for `c4_ticket_transition` at concrete inputs: a create that
succeeds with `T1` on a ticketless session, and an append-branch send on
a session already holding `T1`. -/
theorem c4_witness :
    (c4st.activeChatClientId = some "c1" ∧ c4st.chats "c1" = some c4chat
      ∧ c4chat.clientId = "c1" ∧ jsTruthy c4chat.ticketId = false
      ∧ jsTrim "Hello" ≠ "" ∧ jsTruthy (some "http://api") = true)
    ∧ (((handleSendMessage c4st (some "http://api") "guest" "Hello" "u1" 4
          (some { id := "T1", assigned_agent := none }) true none DetailsOutcome.notOk "e" 5 "p" 6).1.chats "c1").map
            (fun x => x.ticketId)) = some (some "T1")
    ∧ (c4st2.chats "c1" = some c4chat2 ∧ jsTruthy c4chat2.ticketId = true)
    ∧ (((handleSendMessage c4st2 (some "http://api") "guest" "Again" "u2" 7
          none true none DetailsOutcome.notOk "e" 8 "p" 9).1.chats "c1").map
            (fun x => x.ticketId)) = some c4chat2.ticketId :=
  ⟨⟨rfl, rfl, rfl, rfl, by decide, rfl⟩,
    c4_ticket_transition.1 c4st "c1" c4chat (some "http://api") "guest" "Hello" "u1" 4
      { id := "T1", assigned_agent := none } true none DetailsOutcome.notOk "e" 5 "p" 6
      rfl rfl rfl rfl (by decide) rfl,
    ⟨rfl, rfl⟩,
    c4_ticket_transition.2 c4st2 "c1" c4chat2 (some "http://api") "guest" "Again" "u2" 7
      none true none DetailsOutcome.notOk "e" 8 "p" 9 rfl rfl rfl rfl⟩

/-! ## Value lemmas for the send failure path -/

theorem addMessage_value (st : AppState) (aid : String) (c : ChatState) (m : Message)
    (hA : st.activeChatClientId = some aid) (hC : st.chats aid = some c) :
    (addMessageToActiveChat st m).activeChatClientId = some aid
    ∧ (addMessageToActiveChat st m).chats aid
        = some { c with messages := sortByTs (c.messages ++ [m]) } := by
  constructor
  · simp [addMessageToActiveChat, hA]
  · simp [addMessageToActiveChat, hA, hC, applyPatch]

theorem update_value (st : AppState) (aid : String) (c : ChatState) (p : ChatPatch)
    (hA : st.activeChatClientId = some aid) (hC : st.chats aid = some c) :
    (updateActiveChatState st p).activeChatClientId = some aid
    ∧ (updateActiveChatState st p).chats aid = some (applyPatch c p) := by
  constructor
  · simp [updateActiveChatState, hA]
  · simp [updateActiveChatState, hA, hC]

/-- The state left at the active session by the failure path of
`handleSendMessage`: optimistic user message, `Sending` flags, error
message, error agent marker, back to not loading. -/
theorem sendFailure_value (st : AppState) (aid : String) (c : ChatState) (u e : Message)
    (hA : st.activeChatClientId = some aid) (hC : st.chats aid = some c)
    (hsort : TsSorted c.messages)
    (hmaxu : ∀ m ∈ c.messages, m.timestamp ≤ u.timestamp)
    (hue : u.timestamp ≤ e.timestamp) :
    (updateActiveChatState (updateActiveChatState (addMessageToActiveChat
        (updateActiveChatState (addMessageToActiveChat st u)
          { isLoading := some true, linkStatus := some none }) e)
        { currentAgent := some (some "System Error") })
        { isLoading := some false }).chats aid
      = some { c with
          messages := c.messages ++ [u, e]
          currentAgent := some "System Error"
          isLoading := false
          linkStatus := none } := by
  have hs1 : sortByTs (c.messages ++ [u]) = c.messages ++ [u] :=
    sortByTs_append_of_max c.messages u hsort hmaxu
  have hsorted1 : TsSorted (c.messages ++ [u]) := by
    refine List.pairwise_append.mpr ⟨hsort, List.pairwise_singleton _ _, ?_⟩
    intro a ha b hb
    rcases List.mem_singleton.mp hb with rfl
    exact hmaxu a ha
  have hs2 : sortByTs ((c.messages ++ [u]) ++ [e]) = (c.messages ++ [u]) ++ [e] := by
    apply sortByTs_append_of_max _ _ hsorted1
    intro y hy
    rcases List.mem_append.mp hy with hy | hy
    · exact Nat.le_trans (hmaxu y hy) hue
    · have hye : y = u := List.mem_singleton.mp hy
      rw [hye]
      exact hue
  have hs2' : sortByTs (c.messages ++ [u, e]) = c.messages ++ [u, e] := by
    have hassoc : c.messages ++ [u, e] = (c.messages ++ [u]) ++ [e] := by
      simp
    rw [hassoc]
    exact hs2
  have v1 := addMessage_value st aid c u hA hC
  have v2 := update_value _ aid _ { isLoading := some true, linkStatus := some none } v1.1 v1.2
  have v3 := addMessage_value _ aid _ e v2.1 v2.2
  have v4 := update_value _ aid _ { currentAgent := some (some "System Error") } v3.1 v3.2
  have v5 := update_value _ aid _ { isLoading := some false } v4.1 v4.2
  rw [v5.2]
  simp [applyPatch, hs1, hs2', List.append_assoc]

/-! ## C7: failure handling of a send -/

/-- C7: when the backend request issued by `handleSendMessage` fails
(ticket creation on the no-ticket branch, message append on the
has-ticket branch), the active session ends with the optimistic user
message still in place, a system-authored error message appended after
it, `currentAgent` set to the fixed `"System Error"` marker, and
`isLoading` back to `false`. -/
theorem c7_send_failure (st : AppState) (aid : String) (c : ChatState) (api : Option String)
    (guestUserId messageContent msgId : String) (now : Nat)
    (createRes : Option CreateResp) (appendOk : Bool)
    (fetched : Option (List ServerMessage)) (details : DetailsOutcome)
    (errId : String) (errTs : Nat) (pollErrId : String) (pollErrTs : Nat)
    (hA : st.activeChatClientId = some aid) (hC : st.chats aid = some c)
    (hapi : jsTruthy api = true) (htrim : jsTrim messageContent ≠ "")
    (hsort : TsSorted c.messages)
    (hmax : ∀ m ∈ c.messages, m.timestamp ≤ now) (hts : now ≤ errTs)
    (hfail : (jsTruthy c.ticketId = false ∧ createRes = none)
      ∨ (jsTruthy c.ticketId = true ∧ appendOk = false)) :
    (handleSendMessage st api guestUserId messageContent msgId now createRes appendOk
        fetched details errId errTs pollErrId pollErrTs).1.chats aid
      = some { c with
          messages := c.messages
            ++ [{ id := msgId, sender := Sender.user, text := jsTrim messageContent
                  agentName := none, timestamp := now },
                { id := errId, sender := Sender.agent, text := "Error sending message."
                  agentName := some "System Error", timestamp := errTs }]
          currentAgent := some "System Error"
          isLoading := false
          linkStatus := none } := by
  have hAC : activeChatOf st = some c := by
    unfold activeChatOf
    rw [hA]
    exact hC
  have hng : ¬(jsTrim messageContent = "" ∨ jsTruthy api = false) := by
    rw [hapi]
    simp [htrim]
  have hval := sendFailure_value st aid c
    { id := msgId, sender := Sender.user, text := jsTrim messageContent
      agentName := none, timestamp := now }
    { id := errId, sender := Sender.agent, text := "Error sending message."
      agentName := some "System Error", timestamp := errTs }
    hA hC hsort hmax hts
  rcases hfail with ⟨htk, hcr⟩ | ⟨htk, hao⟩
  · simp only [handleSendMessage, hAC]
    rw [if_neg hng, if_pos htk, hcr]
    exact hval
  · have htk' : ¬(jsTruthy c.ticketId = false) := by
      rw [htk]
      simp
    simp only [handleSendMessage, hAC]
    rw [if_neg hng, if_neg htk', hao]
    exact hval

def c7chat : ChatState :=
  { clientId := "c1", ticketId := none
    messages := [{ id := "w1", sender := Sender.agent, text := "welcome"
                   agentName := some "TriageAgent", timestamp := 0 }]
    currentAgent := some "TriageAgent", isLoading := false, linkStatus := none
    isLinking := false, title := "t" }

def c7st : AppState :=
  { chats := fun k => if k = "c1" then some c7chat else none
    chatOrder := ["c1"]
    activeChatClientId := some "c1" }

/-- Witness for `c7_send_failure`: a failed ticket creation on a fresh
session. -/
theorem c7_witness :
    (c7st.activeChatClientId = some "c1" ∧ c7st.chats "c1" = some c7chat
      ∧ jsTruthy (some "http://api") = true ∧ jsTrim "Boom" ≠ ""
      ∧ TsSorted c7chat.messages
      ∧ (∀ m ∈ c7chat.messages, m.timestamp ≤ 10) ∧ (10 : Nat) ≤ 11
      ∧ ((jsTruthy c7chat.ticketId = false ∧ (none : Option CreateResp) = none)
          ∨ (jsTruthy c7chat.ticketId = true ∧ (true : Bool) = false)))
    ∧ (handleSendMessage c7st (some "http://api") "guest" "Boom" "u1" 10 none true
        none DetailsOutcome.notOk "e1" 11 "p" 12).1.chats "c1"
      = some { c7chat with
          messages := c7chat.messages
            ++ [{ id := "u1", sender := Sender.user, text := jsTrim "Boom"
                  agentName := none, timestamp := 10 },
                { id := "e1", sender := Sender.agent, text := "Error sending message."
                  agentName := some "System Error", timestamp := 11 }]
          currentAgent := some "System Error"
          isLoading := false
          linkStatus := none } :=
  ⟨⟨rfl, rfl, rfl, by decide, by decide, by decide, by decide, Or.inl ⟨rfl, rfl⟩⟩,
    c7_send_failure c7st "c1" c7chat (some "http://api") "guest" "Boom" "u1" 10 none true
      none DetailsOutcome.notOk "e1" 11 "p" 12 rfl rfl rfl (by decide) (by decide) (by decide) (by decide)
      (Or.inl ⟨rfl, rfl⟩)⟩
